import Mathlib

/-!
Verification of the Stripe webhook ingestion and reconciliation pipeline of the
boilerplate repository, as a shallow embedding of the TypeScript sources:

* `apps/api` WebhookService (retry-enabled variant, `part_013`): signature
  verification, idempotency store, event dispatch, reconciliation handlers,
  retry orchestrator, notification fan-out;
* the older WebhookService in `apps/api/src/services/webhook.service.ts`
  (invoice handlers and status map differ);
* UsageService.updateQuota (`part_012`);
* NotificationService (`apps/api/src/services/notification.service.ts`);
* WebhookAdminController.retryWebhookEvent (`part_004`).

Conventions of the embedding: Prisma tables are in-memory lists with the
unique-key semantics the services rely on (`stripeEventId` and
`stripeSubscriptionId` are unique keys: the services call
`findUnique` / `update` keyed on them, and the spec §3 states the
`eventId` uniqueness invariant).  JavaScript dates are Nat milliseconds
(`new Date(x * 1000)` becomes `x * 1000`).  JavaScript truthiness of
optional numbers and strings is modelled by `truthyNat` / `truthyStr`.
Side effects (notifications, retry sleeps) are collected in an `Effects`
log; instrumentation fields (`attemptsStarted`, `handlerRuns`) record which
attempts ran and which events reached the dispatcher, mirroring the
per-attempt console logging of the source.  External collaborators
(the Stripe SDK verifier `stripe.webhooks.constructEvent`, the Stripe
customer store, the email/Slack sinks) live in an `Env` record; fault
flags in `Env` model the failure modes named by the spec (a handler that
always throws, a notification sink that always throws, a failing quota
store).
-/

namespace Webhook

/-- Local subscription status vocabulary, from `SubscriptionStatus` in the
shared types package (`part_022`). -/
inductive SubscriptionStatus
  | ACTIVE | CANCELED | INCOMPLETE | INCOMPLETE_EXPIRED
  | PAST_DUE | TRIALING | UNPAID
deriving DecidableEq, Repr, BEq

/-- Billing interval enumeration from the shared types package. -/
inductive BillingInterval
  | MONTH | YEAR
deriving DecidableEq, Repr, BEq

/-- Usage metric enumeration from the shared types package. -/
inductive UsageMetricType
  | USERS | PROJECTS | STORAGE | API_CALLS | BANDWIDTH | COMPUTE_HOURS | CUSTOM
deriving DecidableEq, Repr, BEq

/-- The literal status lookup table of `mapStripeStatus` in the retry-enabled
WebhookService (`part_013` lines 567-579): provider status strings mapped to
local statuses, with the `paused` key present and mapped to `ACTIVE`
(source comment: Map paused to ACTIVE as fallback).  Runtime provider
statuses are strings, so the domain is `String`; keys absent from the
table yield `none`. -/
def statusMap : String → Option SubscriptionStatus
  | "active" => some .ACTIVE
  | "canceled" => some .CANCELED
  | "incomplete" => some .INCOMPLETE
  | "incomplete_expired" => some .INCOMPLETE_EXPIRED
  | "past_due" => some .PAST_DUE
  | "trialing" => some .TRIALING
  | "unpaid" => some .UNPAID
  | "paused" => some .ACTIVE
  | _ => none

/-- `mapStripeStatus` of the retry-enabled WebhookService (`part_013`):
`statusMap[stripeStatus] || SubscriptionStatus.INCOMPLETE` — a miss in the
table silently falls back to `INCOMPLETE`. -/
def mapStripeStatus (stripeStatus : String) : SubscriptionStatus :=
  (statusMap stripeStatus).getD .INCOMPLETE

/-- The status lookup table of the older WebhookService
(`apps/api/src/services/webhook.service.ts` lines 308-319): same seven
mapped statuses but no `paused` key. -/
def statusMapApi : String → Option SubscriptionStatus
  | "active" => some .ACTIVE
  | "canceled" => some .CANCELED
  | "incomplete" => some .INCOMPLETE
  | "incomplete_expired" => some .INCOMPLETE_EXPIRED
  | "past_due" => some .PAST_DUE
  | "trialing" => some .TRIALING
  | "unpaid" => some .UNPAID
  | _ => none

/-- `mapStripeStatus` of the older WebhookService: unmapped statuses
(including `paused`) silently fall back to `INCOMPLETE`. -/
def mapStripeStatusApi (stripeStatus : String) : SubscriptionStatus :=
  (statusMapApi stripeStatus).getD .INCOMPLETE

/-- Character-wise upper-casing (`String.toUpperCase` of JavaScript for the
ASCII interval names the source compares); written structurally so that it
evaluates inside the kernel. -/
def jsToUpper (s : String) : String :=
  String.mk (s.data.map Char.toUpper)

/-- `mapStripeInterval` (`part_013` lines 581-583):
`stripeInterval.toUpperCase() === YEAR ? YEAR : MONTH`. -/
def mapStripeInterval (stripeInterval : String) : BillingInterval :=
  if jsToUpper stripeInterval == "YEAR" then .YEAR else .MONTH

/-- JavaScript truthiness of an optional number: `undefined`, `null` and `0`
are falsy. -/
def truthyNat : Option Nat → Bool
  | none => false
  | some n => !(n == 0)

/-- JavaScript truthiness of an optional string: `undefined`, `null` and the
empty string are falsy. -/
def truthyStr : Option String → Bool
  | none => false
  | some s => !(s == "")

/-- The `x || d` idiom of the source on numbers: the default is taken when
the value is missing or `0`. -/
def orElseNat (o : Option Nat) (d : Nat) : Nat :=
  match o with
  | none => d
  | some n => if n == 0 then d else n

/-- One element of `subscription.items.data` as the handlers read it:
the price fields and the item-level billing period
(`part_013` reads `items.data[0]?.current_period_start`). -/
structure PriceItem where
  priceId : String
  unit_amount : Option Nat
  currency : Option String
  recurring_interval : Option String
  interval_count : Option Nat
  current_period_start : Nat
  current_period_end : Nat
deriving DecidableEq, Repr

/-- The provider subscription object (`Stripe.Subscription`) as the handlers
read it.  The provider status is a plain string at runtime. -/
structure StripeSubscription where
  id : String
  customer : String
  status : String
  items : List PriceItem
  cancel_at_period_end : Bool
  canceled_at : Option Nat
  trial_start : Option Nat
  trial_end : Option Nat
deriving DecidableEq, Repr

/-- The provider invoice object as the handlers read it
(with the `subscription` reference of `InvoiceWithSubscription`). -/
structure StripeInvoice where
  id : String
  subscription : Option String
  amount_paid : Nat
  amount_due : Nat
  currency : String
  period_end : Option Nat
deriving DecidableEq, Repr

/-- The provider customer object as the handlers read it; `metadata.userId`
carries the local user reference. -/
structure StripeCustomer where
  id : String
  metadata_userId : Option String
  email : Option String
  name : Option String
deriving DecidableEq, Repr

/-- The payload object of a trusted event, tagged by shape.  The source casts
`event.data.object` per event type; the claims only exercise well-shaped
events, so dispatch matches the tag together with the type string. -/
inductive EventObject
  | subscription (s : StripeSubscription)
  | invoice (i : StripeInvoice)
  | customer (c : StripeCustomer)
  | checkout (mode : String) (subscriptionRef : Option String)
  | other
deriving DecidableEq, Repr

/-- A trusted event as returned by `stripe.webhooks.constructEvent`. -/
structure Event where
  id : String
  type : String
  data : EventObject
deriving DecidableEq, Repr

/-- A row of the `webhookEvent` table (the ProcessingRecord of the spec):
`id` is the autogenerated row key (used by the admin retry endpoint),
`stripeEventId` the unique provider event id. -/
structure ProcessingRecord where
  id : Nat
  stripeEventId : String
  eventType : String
  data : EventObject
  processed : Bool
  processingError : Option String
deriving DecidableEq, Repr

/-- A row of the `subscription` table with the fields
`createDatabaseSubscription` writes; `stripeSubscriptionId` is a unique
key.  Times are Nat milliseconds. -/
structure Subscription where
  id : Nat
  userId : String
  planId : String
  stripeSubscriptionId : String
  stripeCustomerId : String
  stripePriceId : String
  status : SubscriptionStatus
  currentPeriodStart : Nat
  currentPeriodEnd : Nat
  cancelAtPeriodEnd : Bool
  canceledAt : Option Nat
  trialStart : Option Nat
  trialEnd : Option Nat
  amount : Nat
  currency : String
  interval : BillingInterval
  intervalCount : Nat
  createdAt : Nat
deriving DecidableEq, Repr

/-- A row of the `subscriptionPlan` table with the fields the pipeline
reads. -/
structure Plan where
  id : String
  name : String
  stripePriceId : String
  maxUsers : Option Nat
  maxProjects : Option Nat
  maxStorage : Option Nat
deriving DecidableEq, Repr

/-- A row of the `user` table with the fields the customer handlers touch. -/
structure User where
  id : String
  email : String
  name : Option String
  stripeCustomerId : Option String
deriving DecidableEq, Repr

/-- A row of the `usageQuota` table (`part_012`); the upsert key is
`(subscriptionId, metricType)`. -/
structure UsageQuota where
  subscriptionId : Nat
  metricType : UsageMetricType
  limitAmount : Nat
  currentAmount : Nat
  hardLimit : Bool
  alertThreshold : Option Nat
  resetDate : Option Nat
  exceeded : Bool
  alertSent : Bool
deriving DecidableEq, Repr

/-- The persistent store: the Prisma tables the pipeline touches, plus
counters for autogenerated row ids. -/
structure DB where
  webhookEvents : List ProcessingRecord
  subscriptions : List Subscription
  users : List User
  quotas : List UsageQuota
  plans : List Plan
  nextSubId : Nat
  nextEventRowId : Nat
deriving DecidableEq, Repr

/-- A notification accepted by a sink.  Email bodies and Slack message texts
are reduced to the recipient or channel plus the identifying data the call
site passes; the full formatted text carries no extra information. -/
inductive Notice
  | emailSubscriptionCreated (userId : String) (planId : String)
  | emailSubscriptionCanceled (userId : String)
  | emailPaymentSucceeded (userId : String) (amount : Nat)
  | emailPaymentFailed (userId : String) (amount : Nat)
  | emailAdmin (recipient : String) (event : String)
  | slack (channel : String) (tag : String)
deriving DecidableEq, Repr

/-- The effect log of one (or more) pipeline runs: delivered notifications,
retry sleeps in milliseconds, and instrumentation mirroring the per-attempt
and per-dispatch console logging of the source (`attemptsStarted` records
each attempt number passed to `processWebhookAttempt`; `handlerRuns`
records the event id each time `handleWebhookEvent` is entered). -/
structure Effects where
  notices : List Notice
  sleeps : List Nat
  attemptsStarted : List Nat
  handlerRuns : List String
deriving DecidableEq, Repr

/-- Errors of the pipeline.  The source throws plain `Error` objects with a
message; the constructor distinguishes the taxonomy of spec §7 by the throw
site (missing secret, failed signature verification, anything a handler or
store raises). -/
inductive Err
  | configuration (msg : String)
  | verification (msg : String)
  | handling (msg : String)
deriving DecidableEq, Repr

/-- The message carried by an error (`error.message` in the source). -/
def Err.message : Err → String
  | .configuration m => m
  | .verification m => m
  | .handling m => m

/-- The external world of the pipeline: configuration, the Stripe SDK
verifier and customer store, the notification sinks, and fault flags for
the failure modes the spec quantifies over (`handlerFault`: a handler that
always throws with the given message; `emailSinkFails` / `slackSinkFails`:
a sink that throws on every call, caught inside the notification service;
`quotaFault`: the quota store fails every write).  `now`, `monthStart` and
`monthEnd` fix the clock readings of the run. -/
structure Env where
  webhookSecret : Option String
  verify : String → String → String → Option Event
  customers : List StripeCustomer
  adminEmail : Option String
  slackWebhookUrl : Option String
  emailSinkFails : Bool
  slackSinkFails : Bool
  handlerFault : Option String
  quotaFault : Bool
  now : Nat
  monthStart : Nat
  monthEnd : Nat

/-- `prisma.webhookEvent.findUnique({ where: { stripeEventId } })`. -/
def findWebhookEvent (db : DB) (eid : String) : Option ProcessingRecord :=
  db.webhookEvents.find? (fun r => r.stripeEventId == eid)

/-- `prisma.webhookEvent.upsert({ where: { stripeEventId }, update, create })`:
the existing row is rewritten by `upd`, otherwise a fresh row is created by
`mk` from the next autogenerated row id. -/
def upsertWebhookEvent (db : DB) (eid : String)
    (upd : ProcessingRecord → ProcessingRecord)
    (mk : Nat → ProcessingRecord) : DB :=
  match findWebhookEvent db eid with
  | some _ =>
      { db with webhookEvents :=
          db.webhookEvents.map (fun r => if r.stripeEventId == eid then upd r else r) }
  | none =>
      { db with
          webhookEvents := db.webhookEvents ++ [mk db.nextEventRowId]
          nextEventRowId := db.nextEventRowId + 1 }

/-- `prisma.webhookEvent.update({ where: { stripeEventId }, data: { processed: true } })`;
Prisma raises when no row matches. -/
def markWebhookProcessed (db : DB) (eid : String) : Except Err DB :=
  match findWebhookEvent db eid with
  | none => .error (.handling "Record to update not found")
  | some _ =>
      .ok { db with webhookEvents :=
        db.webhookEvents.map (fun r =>
          if r.stripeEventId == eid then { r with processed := true } else r) }

/-- `prisma.subscription.findUnique({ where: { stripeSubscriptionId } })`. -/
def findSubscription (db : DB) (sid : String) : Option Subscription :=
  db.subscriptions.find? (fun s => s.stripeSubscriptionId == sid)

/-- In-place rewrite of the subscription rows matching a predicate. -/
def mapSubscriptions (db : DB) (p : Subscription → Bool)
    (f : Subscription → Subscription) : DB :=
  { db with subscriptions := db.subscriptions.map (fun s => if p s then f s else s) }

/-! ### Notification fan-out (`notification.service.ts`)

Every public operation funnels into `sendEmail` or `sendSlackNotification`,
whose bodies are wrapped in try/catch that logs and swallows any sink
failure: a failing sink suppresses delivery but never propagates an error.
The model expresses that contract by total functions on `Effects`. -/

/-- `sendEmail`: the send is attempted inside try/catch; when the sink throws
(`emailSinkFails`) nothing is delivered and no error escapes. -/
def sendEmail (env : Env) (n : Notice) (eff : Effects) : Effects :=
  if env.emailSinkFails then eff
  else { eff with notices := eff.notices ++ [n] }

/-- `sendSlackNotification`: returns early when no webhook URL is configured;
otherwise the send is attempted inside try/catch, so a throwing sink
(`slackSinkFails`) is swallowed. -/
def sendSlackNotification (env : Env) (channel tag : String) (eff : Effects) : Effects :=
  match env.slackWebhookUrl with
  | none => eff
  | some _ =>
      if env.slackSinkFails then eff
      else { eff with notices := eff.notices ++ [Notice.slack channel tag] }

/-- `notifyAdmin`: returns early when `ADMIN_EMAIL` is not configured,
otherwise sends an admin email. -/
def notifyAdmin (env : Env) (event : String) (eff : Effects) : Effects :=
  match env.adminEmail with
  | none => eff
  | some recipient => sendEmail env (.emailAdmin recipient event) eff

/-- `notifyWebhookError`: an admin notification about a processing error. -/
def notifyWebhookError (env : Env) (_eventType _eventId _errMsg : String)
    (eff : Effects) : Effects :=
  notifyAdmin env "Webhook Processing Error" eff

/-! ### Usage quotas (`UsageService.updateQuota`, `part_012`) -/

/-- The optional settings of `updateQuota`; a missing field is `undefined`
in the source, which Prisma treats as leaving the column unchanged on
update. -/
structure QuotaOptions where
  hardLimit : Option Bool := none
  alertThreshold : Option Nat := none
  resetDate : Option Nat := none
deriving DecidableEq, Repr

/-- `UsageService.updateQuota`: an upsert keyed on
`(subscriptionId, metricType)`.  The update branch rewrites the limits and
resets `exceeded` / `alertSent`, keeping `currentAmount`; the create branch
starts `currentAmount` at 0.  A store failure (`quotaFault`) is rethrown as
a generic error, as the catch block of the source does. -/
def updateQuota (env : Env) (subscriptionId : Nat) (metricType : UsageMetricType)
    (limitAmount : Nat) (opts : QuotaOptions) (db : DB) : Except Err DB :=
  if env.quotaFault then .error (.handling "Failed to update usage quota")
  else
    match db.quotas.find? (fun q =>
        q.subscriptionId == subscriptionId && q.metricType == metricType) with
    | some _ =>
        .ok { db with quotas := db.quotas.map (fun q =>
          if q.subscriptionId == subscriptionId && q.metricType == metricType then
            { q with
                limitAmount := limitAmount
                hardLimit := opts.hardLimit.getD true
                alertThreshold := match opts.alertThreshold with
                  | some t => some t
                  | none => q.alertThreshold
                resetDate := match opts.resetDate with
                  | some d => some d
                  | none => q.resetDate
                exceeded := false
                alertSent := false }
          else q) }
    | none =>
        .ok { db with quotas := db.quotas ++ [{
          subscriptionId := subscriptionId
          metricType := metricType
          limitAmount := limitAmount
          currentAmount := 0
          hardLimit := opts.hardLimit.getD true
          alertThreshold := opts.alertThreshold
          resetDate := opts.resetDate
          exceeded := false
          alertSent := false }] }

/-- The API-call quota limit by plan name (`initializeUsageQuotas`):
STARTER 10000, PRO 100000, otherwise 1000000. -/
def apiCallLimit (plan : Plan) : Nat :=
  if plan.name == "STARTER" then 10000
  else if plan.name == "PRO" then 100000
  else 1000000

/-- The quota writes `initializeUsageQuotas` issues, in source order:
users / projects / storage quotas when the plan carries a (truthy) limit,
and always an API-calls quota.  Each triple is
(metric, limit, alertThreshold). -/
def quotaCalls (plan : Plan) : List (UsageMetricType × Nat × Nat) :=
  (if truthyNat plan.maxUsers then [(UsageMetricType.USERS, plan.maxUsers.getD 0, 80)] else [])
    ++ (if truthyNat plan.maxProjects then [(UsageMetricType.PROJECTS, plan.maxProjects.getD 0, 80)] else [])
    ++ (if truthyNat plan.maxStorage then [(UsageMetricType.STORAGE, plan.maxStorage.getD 0, 85)] else [])
    ++ [(UsageMetricType.API_CALLS, apiCallLimit plan, 90)]

/-- Runs the quota writes in order, stopping at the first failure and keeping
the writes already committed (the source awaits a `Promise.all` of store
upserts; the sequential model commits a prefix). -/
def runQuotaCalls (env : Env) (subId : Nat) :
    List (UsageMetricType × Nat × Nat) → DB → DB
  | [], db => db
  | (mt, lim, thr) :: rest, db =>
      match updateQuota env subId mt lim { alertThreshold := some thr } db with
      | .ok db1 => runQuotaCalls env subId rest db1
      | .error _ => db

/-- `initializeUsageQuotas` (`part_013` lines 286-350): issues the quota
writes for the new subscription inside try/catch — any error is logged and
swallowed (source comment: quota initialization failure should not stop
subscription creation). -/
def initializeUsageQuotas (env : Env) (subId : Nat) (plan : Plan) (db : DB) : DB :=
  runQuotaCalls env subId (quotaCalls plan) db

/-! ### Reconciliation handlers (retry-enabled WebhookService, `part_013`) -/

/-- `getCustomerFromStripe` followed by the checks of
`validateSubscriptionData` (`part_013` lines 211-237): resolve the provider
customer, require a truthy `metadata.userId`, take the first item price id,
and resolve the local plan by `stripePriceId`.  Each missing piece throws. -/
def validateSubscriptionData (env : Env) (s : StripeSubscription) (db : DB) :
    Except Err (String × Plan) :=
  match env.customers.find? (fun c => c.id == s.customer) with
  | none => .error (.handling "No such customer")
  | some customer =>
      if truthyStr customer.metadata_userId then
        match s.items.head? with
        | none => .error (.handling "No price ID found in subscription")
        | some item =>
            match db.plans.find? (fun p => p.stripePriceId == item.priceId) with
            | none => .error (.handling "No plan found for price ID")
            | some plan => .ok (customer.metadata_userId.getD "", plan)
      else .error (.handling "No userId found in customer metadata")

/-- `createDatabaseSubscription` (`part_013` lines 240-274):
`prisma.subscription.create` — a bare insert.  `stripeSubscriptionId` is a
unique key (the service reads and updates rows via
`findUnique` / `update({ where: { stripeSubscriptionId } })`), so the insert
raises a unique-constraint error when a row for this provider subscription
already exists; otherwise the row is built from the provider object with
the mapped status and the `x || d` defaults of the source. -/
def createDatabaseSubscription (env : Env) (s : StripeSubscription)
    (userId : String) (plan : Plan) (db : DB) : Except Err (Subscription × DB) :=
  if db.subscriptions.any (fun x => x.stripeSubscriptionId == s.id) then
    .error (.handling "Unique constraint failed on stripeSubscriptionId")
  else
    match s.items.head? with
    | none => .error (.handling "No price ID found in subscription")
    | some item =>
        let sub : Subscription := {
          id := db.nextSubId
          userId := userId
          planId := plan.id
          stripeSubscriptionId := s.id
          stripeCustomerId := s.customer
          stripePriceId := item.priceId
          status := mapStripeStatus s.status
          currentPeriodStart := item.current_period_start * 1000
          currentPeriodEnd := item.current_period_end * 1000
          cancelAtPeriodEnd := s.cancel_at_period_end
          canceledAt := none
          trialStart := s.trial_start.map (· * 1000)
          trialEnd := s.trial_end.map (· * 1000)
          amount := orElseNat item.unit_amount 0
          currency := item.currency.getD "usd"
          interval := mapStripeInterval (item.recurring_interval.getD "month")
          intervalCount := orElseNat item.interval_count 1
          createdAt := env.now }
        .ok (sub, { db with
          subscriptions := db.subscriptions ++ [sub]
          nextSubId := db.nextSubId + 1 })

/-- `sendSubscriptionNotifications`: the welcome email and a sales Slack
message. -/
def sendSubscriptionNotifications (env : Env) (sub : Subscription) (plan : Plan)
    (eff : Effects) : Effects :=
  sendSlackNotification env "sales" "new_subscription"
    (sendEmail env (.emailSubscriptionCreated sub.userId plan.id) eff)

/-- `checkRevenueMilestone` (`part_013` lines 623-667): sums the monthly
recurring revenue of the ACTIVE / TRIALING subscriptions created in the
current month (yearly amounts divided by 12; the model uses Nat division
for the JavaScript float division) and notifies on the first milestone the
revenue reaches, in ascending order, as the break in the source loop does.
The whole body is in try/catch and never fails the caller. -/
def checkRevenueMilestone (env : Env) (db : DB) (eff : Effects) : Effects :=
  let active := db.subscriptions.filter (fun s =>
    (s.status == .ACTIVE || s.status == .TRIALING)
      && decide (env.monthStart ≤ s.createdAt) && decide (s.createdAt < env.monthEnd))
  let monthlyRevenue := active.foldl (fun t s =>
    t + (if s.interval == .YEAR then s.amount / 12 else s.amount)) 0
  let milestones : List Nat := [100000, 500000, 1000000, 2500000, 5000000, 10000000]
  match milestones.find? (fun m => decide (m ≤ monthlyRevenue)) with
  | some _ => notifyAdmin env "Revenue Milestone Reached"
      (sendSlackNotification env "revenue" "revenue_milestone" eff)
  | none => eff

/-- `handleSubscriptionCreated` (`part_013` lines 192-209): validate, create
the row, initialize quotas (best effort), notify, check milestones.  The
catch block logs and rethrows, leaving the semantics unchanged. -/
def handleSubscriptionCreated (env : Env) (s : StripeSubscription)
    (db : DB) (eff : Effects) : Except Err Unit × DB × Effects :=
  match validateSubscriptionData env s db with
  | .error e => (.error e, db, eff)
  | .ok (userId, plan) =>
      match createDatabaseSubscription env s userId plan db with
      | .error e => (.error e, db, eff)
      | .ok (newSub, db1) =>
          let db2 := initializeUsageQuotas env newSub.id plan db1
          let eff1 := sendSubscriptionNotifications env newSub plan eff
          let eff2 := checkRevenueMilestone env db2 eff1
          (.ok (), db2, eff2)

/-- `handleStatusChange` (`part_013` lines 585-621): Slack alerts for
trial conversion, past-due and unpaid transitions, plus an admin email for
the unpaid case. -/
def handleStatusChange (env : Env) (prev next : SubscriptionStatus)
    (eff : Effects) : Effects :=
  let eff1 := if prev == .TRIALING && next == .ACTIVE then
      sendSlackNotification env "conversions" "trial_converted" eff
    else eff
  let eff2 := if next == .PAST_DUE then
      sendSlackNotification env "billing-alerts" "past_due" eff1
    else eff1
  if next == .UNPAID then
    notifyAdmin env "Subscription About to Cancel"
      (sendSlackNotification env "billing-alerts" "unpaid" eff2)
  else eff2

/-- `handleSubscriptionUpdated` (`part_013` lines 352-394): a missing local
row is a logged no-op (update-before-create tolerance); otherwise the row
is rewritten with the mapped status and new period / cancellation fields,
and a status change triggers `handleStatusChange`. -/
def handleSubscriptionUpdated (env : Env) (s : StripeSubscription)
    (db : DB) (eff : Effects) : Except Err Unit × DB × Effects :=
  match findSubscription db s.id with
  | none => (.ok (), db, eff)
  | some existing =>
      let previousStatus := existing.status
      let newStatus := mapStripeStatus s.status
      match s.items.head? with
      | none =>
          -- items.data[0] missing would make the period reads produce an
          -- invalid date and the store write fail
          (.error (.handling "Invalid period data"), db, eff)
      | some item =>
          let db1 := mapSubscriptions db (fun x => x.stripeSubscriptionId == s.id)
            (fun x => { x with
              status := newStatus
              currentPeriodStart := item.current_period_start * 1000
              currentPeriodEnd := item.current_period_end * 1000
              cancelAtPeriodEnd := s.cancel_at_period_end
              canceledAt := s.canceled_at.map (· * 1000) })
          let eff1 := if previousStatus != newStatus then
              handleStatusChange env previousStatus newStatus eff
            else eff
          (.ok (), db1, eff1)

/-- `handleSubscriptionDeleted` (`part_013` lines 396-426):
`prisma.subscription.update` keyed on `stripeSubscriptionId` (raising when
no row matches) sets the status to CANCELED and stamps `canceledAt`; then
the cancellation email and a churn Slack message. -/
def handleSubscriptionDeleted (env : Env) (s : StripeSubscription)
    (db : DB) (eff : Effects) : Except Err Unit × DB × Effects :=
  match findSubscription db s.id with
  | none => (.error (.handling "Record to update not found"), db, eff)
  | some existing =>
      let db1 := mapSubscriptions db (fun x => x.stripeSubscriptionId == s.id)
        (fun x => { x with status := .CANCELED, canceledAt := some env.now })
      let eff1 := sendSlackNotification env "churn" "subscription_canceled"
        (sendEmail env (.emailSubscriptionCanceled existing.userId) eff)
      (.ok (), db1, eff1)

/-- `handleInvoicePaymentSucceeded` (`part_013` lines 428-462): no-op without
a subscription reference or a matching local row; otherwise the payment
confirmation is sent and, when the invoice carries a (truthy) `period_end`,
only `currentPeriodEnd` of the row is rewritten — the status is never
touched. -/
def handleInvoicePaymentSucceeded (env : Env) (inv : StripeInvoice)
    (db : DB) (eff : Effects) : Except Err Unit × DB × Effects :=
  match inv.subscription with
  | none => (.ok (), db, eff)
  | some sid =>
      match findSubscription db sid with
      | none => (.ok (), db, eff)
      | some sub =>
          let eff1 := sendEmail env (.emailPaymentSucceeded sub.userId inv.amount_paid) eff
          if truthyNat inv.period_end then
            (.ok (), mapSubscriptions db (fun x => x.id == sub.id)
              (fun x => { x with currentPeriodEnd := inv.period_end.getD 0 * 1000 }), eff1)
          else (.ok (), db, eff1)

/-- `handleInvoicePaymentFailed` (`part_013` lines 464-505): no-op without a
matching row; otherwise the failure email, a billing-alerts Slack message,
and an extra admin email when `amount_due` is at least 5000 cents.  No
store mutation at all. -/
def handleInvoicePaymentFailed (env : Env) (inv : StripeInvoice)
    (db : DB) (eff : Effects) : Except Err Unit × DB × Effects :=
  match inv.subscription with
  | none => (.ok (), db, eff)
  | some sid =>
      match findSubscription db sid with
      | none => (.ok (), db, eff)
      | some sub =>
          let eff1 := sendSlackNotification env "billing-alerts" "payment_failed"
            (sendEmail env (.emailPaymentFailed sub.userId inv.amount_due) eff)
          let eff2 := if decide (5000 ≤ inv.amount_due) then
              notifyAdmin env "High-Value Payment Failure" eff1
            else eff1
          (.ok (), db, eff2)

/-- `handleCustomerCreated` (`part_013` lines 507-523): with a truthy
`metadata.userId`, `prisma.user.update({ where: { id: userId } })` stamps the
Stripe customer id (raising when the user row is missing); otherwise a
no-op. -/
def handleCustomerCreated (_env : Env) (c : StripeCustomer)
    (db : DB) (eff : Effects) : Except Err Unit × DB × Effects :=
  if truthyStr c.metadata_userId then
    let uid := c.metadata_userId.getD ""
    if db.users.any (fun u => u.id == uid) then
      (.ok (), { db with users := db.users.map (fun u =>
        if u.id == uid then { u with stripeCustomerId := some c.id } else u) }, eff)
    else (.error (.handling "Record to update not found"), db, eff)
  else (.ok (), db, eff)

/-- `handleCustomerUpdated` (`part_013` lines 525-545): with truthy
`metadata.userId` and email, `updateMany` keyed on `stripeCustomerId`
rewrites the email snapshot and, when the customer name is truthy, the
name (`name || undefined` leaves the column unchanged otherwise);
`updateMany` never raises on zero matches. -/
def handleCustomerUpdated (_env : Env) (c : StripeCustomer)
    (db : DB) (eff : Effects) : Except Err Unit × DB × Effects :=
  if truthyStr c.metadata_userId && truthyStr c.email then
    (.ok (), { db with users := db.users.map (fun u =>
      if u.stripeCustomerId == some c.id then
        { u with
            email := c.email.getD ""
            name := if truthyStr c.name then c.name else u.name }
      else u) }, eff)
  else (.ok (), db, eff)

/-! ### Dispatcher, attempt flow and retry orchestrator (`part_013`) -/

/-- `handleWebhookEvent` (`part_013` lines 152-190): the static type-to-handler
table; unknown event types are logged and acknowledged as a successful
no-op.  `checkout.session.completed` only logs.  The entry is recorded in
`handlerRuns`; `handlerFault` injects the faulty-handler failure mode of
spec §8 (a handler that always throws a transient error). -/
def handleWebhookEvent (env : Env) (e : Event) (db : DB) (eff : Effects) :
    Except Err Unit × DB × Effects :=
  let eff := { eff with handlerRuns := eff.handlerRuns ++ [e.id] }
  match env.handlerFault with
  | some m => (.error (.handling m), db, eff)
  | none =>
      match e.type, e.data with
      | "customer.subscription.created", .subscription s => handleSubscriptionCreated env s db eff
      | "customer.subscription.updated", .subscription s => handleSubscriptionUpdated env s db eff
      | "customer.subscription.deleted", .subscription s => handleSubscriptionDeleted env s db eff
      | "invoice.payment_succeeded", .invoice i => handleInvoicePaymentSucceeded env i db eff
      | "invoice.payment_failed", .invoice i => handleInvoicePaymentFailed env i db eff
      | "customer.created", .customer c => handleCustomerCreated env c db eff
      | "customer.updated", .customer c => handleCustomerUpdated env c db eff
      | "checkout.session.completed", .checkout _ _ => (.ok (), db, eff)
      | _, _ => (.ok (), db, eff)

/-- `notifyWebhookSuccess` (`part_013` lines 669-680): only console logging,
no observable effect. -/
def notifyWebhookSuccess (_e : Event) (eff : Effects) : Effects := eff

/-- `processWebhookEventFlow` (`part_013` lines 79-109): upsert the record to
`processed = false` with the error cleared, run the handler, then mark the
record processed and send the success notification. -/
def processWebhookEventFlow (env : Env) (e : Event) (db : DB) (eff : Effects) :
    Except Err Unit × DB × Effects :=
  let db1 := upsertWebhookEvent db e.id
    (fun r => { r with processed := false, processingError := none })
    (fun rid => {
      id := rid
      stripeEventId := e.id
      eventType := e.type
      data := e.data
      processed := false
      processingError := none })
  match handleWebhookEvent env e db1 eff with
  | (.error er, db2, eff2) => (.error er, db2, eff2)
  | (.ok _, db2, eff2) =>
      match markWebhookProcessed db2 e.id with
      | .error er => (.error er, db2, eff2)
      | .ok db3 => (.ok (), db3, notifyWebhookSuccess e eff2)

/-- `handleWebhookProcessingError` (`part_013` lines 111-150): inside its own
try/catch, the payload is re-verified; on success the record is upserted
with the error message (create keeps `processed = false`) and the admin is
notified; any inner failure — a missing secret (`STRIPE_WEBHOOK_SECRET!`)
or a failing verification — is logged and swallowed, leaving the store
untouched. -/
def handleWebhookProcessingError (env : Env) (er : Err) (payload signature : String)
    (db : DB) (eff : Effects) : DB × Effects :=
  match env.webhookSecret with
  | none => (db, eff)
  | some secret =>
      match env.verify payload signature secret with
      | none => (db, eff)
      | some e =>
          let db1 := upsertWebhookEvent db e.id
            (fun r => { r with processingError := some er.message })
            (fun rid => {
              id := rid
              stripeEventId := e.id
              eventType := e.type
              data := e.data
              processed := false
              processingError := some er.message })
          (db1, notifyWebhookError env e.type e.id er.message eff)

/-- `processWebhookAttempt` (`part_013` lines 43-77): require the secret,
verify the signature, short-circuit with success when the record is already
processed, otherwise run the event flow; on any error run
`handleWebhookProcessingError` and rethrow. -/
def processWebhookAttempt (env : Env) (payload signature : String) (attempt : Nat)
    (db : DB) (eff : Effects) : Except Err Unit × DB × Effects :=
  let eff0 := { eff with attemptsStarted := eff.attemptsStarted ++ [attempt] }
  let inner : Except Err Unit × DB × Effects :=
    match env.webhookSecret with
    | none =>
        (.error (.configuration "STRIPE_WEBHOOK_SECRET environment variable is required"),
          db, eff0)
    | some secret =>
        match env.verify payload signature secret with
        | none => (.error (.verification "Webhook signature verification failed"), db, eff0)
        | some e =>
            match findWebhookEvent db e.id with
            | some r =>
                if r.processed then (.ok (), db, eff0)
                else processWebhookEventFlow env e db eff0
            | none => processWebhookEventFlow env e db eff0
  match inner with
  | (.ok u, db1, eff1) => (.ok u, db1, eff1)
  | (.error er, db1, eff1) =>
      let (db2, eff2) := handleWebhookProcessingError env er payload signature db1 eff1
      (.error er, db2, eff2)

/-- `MAX_RETRY_ATTEMPTS` of the retry orchestrator. -/
def MAX_RETRY_ATTEMPTS : Nat := 3

/-- `RETRY_DELAY` base backoff in milliseconds. -/
def RETRY_DELAY : Nat := 1000

/-- The retry loop of `processStripeWebhook` (`part_013` lines 17-41), with
the remaining fuel made explicit (`fuel = MAX_RETRY_ATTEMPTS - attempt`).
Each iteration runs one attempt; on failure the loop sleeps
`RETRY_DELAY * attempt` (with `attempt` already incremented, exactly the
source) unless the budget is exhausted, and the error of the last executed
attempt is rethrown once all attempts failed. -/
def retryLoop (env : Env) (payload signature : String) :
    Nat → Nat → Err → DB → Effects → Except Err Unit × DB × Effects
  | 0, _, lastErr, db, eff => (.error lastErr, db, eff)
  | fuel + 1, attempt, _, db, eff =>
      match processWebhookAttempt env payload signature (attempt + 1) db eff with
      | (.ok _, db1, eff1) => (.ok (), db1, eff1)
      | (.error er, db1, eff1) =>
          let eff2 := if attempt + 1 < MAX_RETRY_ATTEMPTS then
              { eff1 with sleeps := eff1.sleeps ++ [RETRY_DELAY * (attempt + 1)] }
            else eff1
          retryLoop env payload signature fuel (attempt + 1) er db1 eff2

/-- `processStripeWebhook` (`part_013` lines 17-41): the whole pipeline entry
point — up to `MAX_RETRY_ATTEMPTS` attempts with linear backoff between
them.  The initial error value is never surfaced since the budget is
positive. -/
def processStripeWebhook (env : Env) (payload signature : String)
    (db : DB) (eff : Effects) : Except Err Unit × DB × Effects :=
  retryLoop env payload signature MAX_RETRY_ATTEMPTS 0 (.handling "no attempt ran") db eff

/-! ### The older WebhookService (`apps/api/src/services/webhook.service.ts`)

Only the invoice handlers, which differ materially: they rewrite the local
subscription status from the payment outcome via `updateMany` (which never
raises on zero matches). -/

/-- `handleInvoicePaymentSucceeded` of the older service (lines 213-228):
sets the status of the referenced subscription to ACTIVE. -/
def handleInvoicePaymentSucceededApi (inv : StripeInvoice) (db : DB) :
    Except Err Unit × DB :=
  match inv.subscription with
  | none => (.ok (), db)
  | some sid =>
      (.ok (), { db with subscriptions := db.subscriptions.map (fun x =>
        if x.stripeSubscriptionId == sid then { x with status := .ACTIVE } else x) })

/-- `handleInvoicePaymentFailed` of the older service (lines 231-246):
sets the status of the referenced subscription to PAST_DUE. -/
def handleInvoicePaymentFailedApi (inv : StripeInvoice) (db : DB) :
    Except Err Unit × DB :=
  match inv.subscription with
  | none => (.ok (), db)
  | some sid =>
      (.ok (), { db with subscriptions := db.subscriptions.map (fun x =>
        if x.stripeSubscriptionId == sid then { x with status := .PAST_DUE } else x) })

/-! ### Admin retry endpoint (`WebhookAdminController.retryWebhookEvent`,
`part_004` lines 113-161) -/

/-- The three responses of the retry endpoint. -/
inductive RetryResponse
  | notFound
  | alreadyProcessed
  | markedForRetry
deriving DecidableEq, Repr

/-- `retryWebhookEvent`: look the record up by its row id; 404 when absent,
400 (no mutation) when already processed, otherwise clear the error and
keep `processed = false`, marking the record ready for retry. -/
def retryWebhookEvent (db : DB) (rowId : Nat) : RetryResponse × DB :=
  match db.webhookEvents.find? (fun r => r.id == rowId) with
  | none => (.notFound, db)
  | some r =>
      if r.processed then (.alreadyProcessed, db)
      else (.markedForRetry, { db with webhookEvents := db.webhookEvents.map (fun x =>
        if x.id == rowId then { x with processingError := none, processed := false } else x) })

/-! ### Concrete scenario fixtures

The running example of spec §8: event `evt_1` of type
`customer.subscription.created` for customer `cus_1` (metadata user `u1`)
on price `price_pro_monthly` mapped to the local PRO plan. -/

/-- The local PRO plan row of the example scenario. -/
def basePlan : Plan := {
  id := "plan_pro"
  name := "PRO"
  stripePriceId := "price_pro_monthly"
  maxUsers := some 5
  maxProjects := none
  maxStorage := none }

/-- The single subscription item of the example provider subscription. -/
def baseItem : PriceItem := {
  priceId := "price_pro_monthly"
  unit_amount := some 2000
  currency := some "usd"
  recurring_interval := some "month"
  interval_count := some 1
  current_period_start := 100
  current_period_end := 200 }

/-- The provider subscription object of the example scenario. -/
def baseStripeSub : StripeSubscription := {
  id := "sub_1"
  customer := "cus_1"
  status := "active"
  items := [baseItem]
  cancel_at_period_end := false
  canceled_at := none
  trial_start := none
  trial_end := none }

/-- The provider customer of the example scenario, carrying the local user
reference in its metadata. -/
def baseCustomer : StripeCustomer := {
  id := "cus_1"
  metadata_userId := some "u1"
  email := some "u1@example.com"
  name := some "User One" }

/-- The local user row of the example scenario. -/
def baseUser : User := {
  id := "u1"
  email := "u1@example.com"
  name := some "User One"
  stripeCustomerId := some "cus_1" }

/-- The example trusted event `evt_1`. -/
def evt1 : Event := {
  id := "evt_1"
  type := "customer.subscription.created"
  data := .subscription baseStripeSub }

/-- The initial store of the example scenario: the plan and the user exist,
nothing else. -/
def baseDB : DB := {
  webhookEvents := []
  subscriptions := []
  users := [baseUser]
  quotas := []
  plans := [basePlan]
  nextSubId := 1
  nextEventRowId := 1 }

/-- The empty effect log. -/
def eff0 : Effects := { notices := [], sleeps := [], attemptsStarted := [], handlerRuns := [] }

/-- The healthy environment of the example scenario: secret configured, the
verifier accepts exactly the delivery (`body1`, `sig1`) as `evt_1`, the
customer exists, sinks work, no faults. -/
def baseEnv : Env := {
  webhookSecret := some "whsec"
  verify := fun p sg sec =>
    if p == "body1" && sg == "sig1" && sec == "whsec" then some evt1 else none
  customers := [baseCustomer]
  adminEmail := some "admin@example.com"
  slackWebhookUrl := some "slack-hook"
  emailSinkFails := false
  slackSinkFails := false
  handlerFault := none
  quotaFault := false
  now := 999
  monthStart := 0
  monthEnd := 1000000 }

/-- A subscription row in PAST_DUE, used to exhibit status rewrites of the
older invoice handlers. -/
def subPastDue : Subscription := {
  id := 1
  userId := "u1"
  planId := "plan_pro"
  stripeSubscriptionId := "sub_1"
  stripeCustomerId := "cus_1"
  stripePriceId := "price_pro_monthly"
  status := .PAST_DUE
  currentPeriodStart := 100000
  currentPeriodEnd := 200000
  cancelAtPeriodEnd := false
  canceledAt := none
  trialStart := none
  trialEnd := none
  amount := 2000
  currency := "usd"
  interval := .MONTH
  intervalCount := 1
  createdAt := 999 }

/-- An invoice referencing `sub_1`, paid. -/
def invPaid : StripeInvoice := {
  id := "in_1"
  subscription := some "sub_1"
  amount_paid := 2000
  amount_due := 0
  currency := "usd"
  period_end := some 300 }

/-! ### Helper lemmas on list lookups -/

/-- Looking up in an append skips a prefix with no match. -/
theorem find?_append_of_none {α : Type} (p : α → Bool) {l1 : List α} (l2 : List α)
    (h : l1.find? p = none) : (l1 ++ l2).find? p = l2.find? p := by
  induction l1 with
  | nil => simp
  | cons a t ih =>
      rcases hpa : p a with _ | _
      · rw [List.cons_append, List.find?_cons_of_neg _ (by simp [hpa])]
        rw [List.find?_cons_of_neg _ (by simp [hpa])] at h
        exact ih h
      · rw [List.find?_cons_of_pos _ hpa] at h
        exact absurd h (by simp)

/-- A selective in-place rewrite commutes with lookup when the rewrite
preserves the selection predicate. -/
theorem find?_map_if {α : Type} (p : α → Bool) (f : α → α)
    (hf : ∀ a, p (f a) = p a) :
    ∀ l : List α, (l.map (fun a => if p a then f a else a)).find? p = (l.find? p).map f
  | [] => by simp
  | a :: t => by
      rcases hpa : p a with _ | _
      · rw [List.map_cons, if_neg (by simp [hpa]),
          List.find?_cons_of_neg _ (by simp [hpa]),
          List.find?_cons_of_neg _ (by simp [hpa])]
        exact find?_map_if p f hf t
      · rw [List.map_cons, if_pos (by simp [hpa]),
          List.find?_cons_of_pos _ (by rw [hf]; exact hpa),
          List.find?_cons_of_pos _ hpa]
        simp

/-! ### Claims -/

/-- C2: the spec demands that a subscription event with an unrecognized (or
paused) provider status raise UnmappedStatusError and never map to a
default local status.  The code does the opposite: `mapStripeStatus` of the
retry-enabled service maps `paused` to ACTIVE and any unrecognized status
to INCOMPLETE, and the older service maps both to INCOMPLETE — no error is
ever raised.  The spec itself (§9) flags this observed fallback as a likely
latent defect, so the code, not the claim, is wrong. -/
theorem claim_C2_unmapped_status_fallback :
    mapStripeStatus "paused" = SubscriptionStatus.ACTIVE
      ∧ mapStripeStatus "unrecognized_status" = SubscriptionStatus.INCOMPLETE
      ∧ mapStripeStatusApi "paused" = SubscriptionStatus.INCOMPLETE
      ∧ mapStripeStatusApi "unrecognized_status" = SubscriptionStatus.INCOMPLETE :=
  ⟨rfl, rfl, rfl, rfl⟩

/-- C1: a delivery of an event whose record is already processed returns
success immediately: the store is untouched (no Subscription, UsageQuota,
user or ProcessingRecord row changes), no handler runs, no notification and
no backoff sleep is emitted, and any number of further redeliveries leaves
the domain state fixed. -/
theorem claim_C1_duplicate_delivery_short_circuit
    (env : Env) (payload signature secret : String) (e : Event)
    (db : DB) (eff : Effects) (r : ProcessingRecord)
    (hsec : env.webhookSecret = some secret)
    (hver : env.verify payload signature secret = some e)
    (hfind : findWebhookEvent db e.id = some r)
    (hproc : r.processed = true) :
    (processStripeWebhook env payload signature db eff).1 = .ok ()
      ∧ (processStripeWebhook env payload signature db eff).2.1 = db
      ∧ (processStripeWebhook env payload signature db eff).2.2.notices = eff.notices
      ∧ (processStripeWebhook env payload signature db eff).2.2.handlerRuns = eff.handlerRuns
      ∧ (processStripeWebhook env payload signature db eff).2.2.sleeps = eff.sleeps
      ∧ ∀ N, (fun d => (processStripeWebhook env payload signature d eff).2.1)^[N] db = db := by
  have a1 : ∀ eff1 : Effects, processWebhookAttempt env payload signature 1 db eff1
      = (.ok (), db, { eff1 with attemptsStarted := eff1.attemptsStarted ++ [1] }) := by
    intro eff1
    simp [processWebhookAttempt, hsec, hver, hfind, hproc]
  have key : ∀ eff1 : Effects, processStripeWebhook env payload signature db eff1
      = (.ok (), db, { eff1 with attemptsStarted := eff1.attemptsStarted ++ [1] }) := by
    intro eff1
    show retryLoop env payload signature (2 + 1) 0 (.handling "no attempt ran") db eff1 = _
    rw [retryLoop, a1]
  refine ⟨by rw [key], by rw [key], by rw [key], by rw [key], by rw [key], ?_⟩
  intro N
  exact Function.iterate_fixed (by rw [key]) N

/-- C1 witness: the short-circuit at the concrete scenario — the store after
one successful delivery of `evt_1` is a fixed point of redelivery. -/
theorem claim_C1_duplicate_delivery_short_circuit_witness :
    (processStripeWebhook baseEnv "body1" "sig1"
        (processStripeWebhook baseEnv "body1" "sig1" baseDB eff0).2.1 eff0).2.1
      = (processStripeWebhook baseEnv "body1" "sig1" baseDB eff0).2.1 :=
  (claim_C1_duplicate_delivery_short_circuit baseEnv "body1" "sig1" "whsec" evt1
    (processStripeWebhook baseEnv "body1" "sig1" baseDB eff0).2.1 eff0
    { id := 1
      stripeEventId := "evt_1"
      eventType := "customer.subscription.created"
      data := .subscription baseStripeSub
      processed := true
      processingError := none }
    rfl rfl (by decide) rfl).2.1

/-- C4: a delivery whose signature does not verify fails without invoking any
handler and without creating or mutating any ProcessingRecord — the store is
returned unchanged and the error-recording path, which re-verifies the
payload, swallows its own failure without writing. -/
theorem claim_C4_invalid_signature_rejected
    (env : Env) (payload signature secret : String) (db : DB) (eff : Effects)
    (hsec : env.webhookSecret = some secret)
    (hver : env.verify payload signature secret = none) :
    (processStripeWebhook env payload signature db eff).1
        = .error (.verification "Webhook signature verification failed")
      ∧ (processStripeWebhook env payload signature db eff).2.1 = db
      ∧ (processStripeWebhook env payload signature db eff).2.2.notices = eff.notices
      ∧ (processStripeWebhook env payload signature db eff).2.2.handlerRuns = eff.handlerRuns := by
  have aerr : ∀ (a : Nat) (eff1 : Effects),
      processWebhookAttempt env payload signature a db eff1
        = (.error (.verification "Webhook signature verification failed"), db,
           { eff1 with attemptsStarted := eff1.attemptsStarted ++ [a] }) := by
    intro a eff1
    simp [processWebhookAttempt, handleWebhookProcessingError, hsec, hver]
  have key : processStripeWebhook env payload signature db eff
      = (.error (.verification "Webhook signature verification failed"), db,
         { eff with
             attemptsStarted := eff.attemptsStarted ++ [1, 2, 3]
             sleeps := eff.sleeps ++ [1000, 2000] }) := by
    show retryLoop env payload signature (2 + 1) 0 _ db eff = _
    rw [retryLoop, aerr]
    show retryLoop env payload signature (1 + 1) 1 _ db _ = _
    rw [retryLoop, aerr]
    show retryLoop env payload signature (0 + 1) 2 _ db _ = _
    rw [retryLoop, aerr]
    show retryLoop env payload signature 0 3 _ db _ = _
    rw [retryLoop]
    simp [MAX_RETRY_ATTEMPTS, RETRY_DELAY, List.append_assoc]
  exact ⟨by rw [key], by rw [key], by rw [key], by rw [key]⟩

/-- An environment whose verifier rejects every delivery (tampered payload or
stale signature). -/
def envBadSig : Env := { baseEnv with verify := fun _ _ _ => none }

/-- C4 witness: the rejection at a concrete tampered delivery. -/
theorem claim_C4_invalid_signature_rejected_witness :
    (processStripeWebhook envBadSig "tampered" "sig1" baseDB eff0).1
        = .error (.verification "Webhook signature verification failed")
      ∧ (processStripeWebhook envBadSig "tampered" "sig1" baseDB eff0).2.1 = baseDB
      ∧ (processStripeWebhook envBadSig "tampered" "sig1" baseDB eff0).2.2.notices = eff0.notices
      ∧ (processStripeWebhook envBadSig "tampered" "sig1" baseDB eff0).2.2.handlerRuns
          = eff0.handlerRuns :=
  claim_C4_invalid_signature_rejected envBadSig "tampered" "sig1" "whsec" baseDB eff0 rfl rfl

/-- C5 counterexample: the claim says a verification failure is rejected on
the first attempt — exactly one verification attempt and no backoff delay.
On a concrete delivery that never verifies, the retry loop makes three
attempts and sleeps twice: the loop does not special-case verification or
configuration errors. -/
theorem claim_C5_counterexample :
    (processStripeWebhook envBadSig "body1" "sig1" baseDB eff0).2.2.attemptsStarted = [1, 2, 3]
      ∧ ¬ (processStripeWebhook envBadSig "body1" "sig1" baseDB eff0).2.2.attemptsStarted.length = 1
      ∧ (processStripeWebhook envBadSig "body1" "sig1" baseDB eff0).2.2.sleeps = [1000, 2000]
      ∧ (processStripeWebhook envBadSig "body1" "sig1" baseDB eff0).2.2.sleeps ≠ [] := by
  refine ⟨by decide, by decide, by decide, by decide⟩

/-- C5 amended: a VerificationError or ConfigurationError causes
`processStripeWebhook` to reject only after exhausting all
MAX_RETRY_ATTEMPTS = 3 attempts — the retry loop does not distinguish these
errors — with backoff sleeps of 1s and 2s between the attempts.  The
surfaced error is the verification / configuration error, and on every
attempt no handler is invoked and no record is created or mutated. -/
theorem claim_C5_amended_verification_errors_retried
    (env : Env) (payload signature : String) (db : DB) (eff : Effects)
    (h : env.webhookSecret = none
      ∨ ∃ secret, env.webhookSecret = some secret
          ∧ env.verify payload signature secret = none) :
    (∃ er, (processStripeWebhook env payload signature db eff).1 = .error er
        ∧ (er = .configuration "STRIPE_WEBHOOK_SECRET environment variable is required"
            ∨ er = .verification "Webhook signature verification failed"))
      ∧ (processStripeWebhook env payload signature db eff).2.1 = db
      ∧ (processStripeWebhook env payload signature db eff).2.2.attemptsStarted
          = eff.attemptsStarted ++ [1, 2, 3]
      ∧ (processStripeWebhook env payload signature db eff).2.2.sleeps
          = eff.sleeps ++ [1000, 2000]
      ∧ (processStripeWebhook env payload signature db eff).2.2.handlerRuns
          = eff.handlerRuns := by
  have main : ∀ er0 : Err,
      (∀ (a : Nat) (eff1 : Effects),
        processWebhookAttempt env payload signature a db eff1
          = (.error er0, db, { eff1 with attemptsStarted := eff1.attemptsStarted ++ [a] })) →
      processStripeWebhook env payload signature db eff
        = (.error er0, db,
           { eff with
               attemptsStarted := eff.attemptsStarted ++ [1, 2, 3]
               sleeps := eff.sleeps ++ [1000, 2000] }) := by
    intro er0 aerr
    show retryLoop env payload signature (2 + 1) 0 _ db eff = _
    rw [retryLoop, aerr]
    show retryLoop env payload signature (1 + 1) 1 _ db _ = _
    rw [retryLoop, aerr]
    show retryLoop env payload signature (0 + 1) 2 _ db _ = _
    rw [retryLoop, aerr]
    show retryLoop env payload signature 0 3 _ db _ = _
    rw [retryLoop]
    simp [MAX_RETRY_ATTEMPTS, RETRY_DELAY, List.append_assoc]
  rcases h with hnone | ⟨secret, hsec, hver⟩
  · have key := main (.configuration "STRIPE_WEBHOOK_SECRET environment variable is required")
      (by intro a eff1
          simp [processWebhookAttempt, handleWebhookProcessingError, hnone])
    exact ⟨⟨_, by rw [key], Or.inl rfl⟩, by rw [key], by rw [key], by rw [key], by rw [key]⟩
  · have key := main (.verification "Webhook signature verification failed")
      (by intro a eff1
          simp [processWebhookAttempt, handleWebhookProcessingError, hsec, hver])
    exact ⟨⟨_, by rw [key], Or.inr rfl⟩, by rw [key], by rw [key], by rw [key], by rw [key]⟩

/-- An environment with no webhook secret configured. -/
def envNoSecret : Env := { baseEnv with webhookSecret := none }

/-- C5 amended witness: the missing-secret configuration error at a concrete
delivery is also retried three times before surfacing. -/
theorem claim_C5_amended_verification_errors_retried_witness :
    (∃ er, (processStripeWebhook envNoSecret "body1" "sig1" baseDB eff0).1 = .error er
        ∧ (er = .configuration "STRIPE_WEBHOOK_SECRET environment variable is required"
            ∨ er = .verification "Webhook signature verification failed"))
      ∧ (processStripeWebhook envNoSecret "body1" "sig1" baseDB eff0).2.1 = baseDB
      ∧ (processStripeWebhook envNoSecret "body1" "sig1" baseDB eff0).2.2.attemptsStarted
          = eff0.attemptsStarted ++ [1, 2, 3]
      ∧ (processStripeWebhook envNoSecret "body1" "sig1" baseDB eff0).2.2.sleeps
          = eff0.sleeps ++ [1000, 2000]
      ∧ (processStripeWebhook envNoSecret "body1" "sig1" baseDB eff0).2.2.handlerRuns
          = eff0.handlerRuns :=
  claim_C5_amended_verification_errors_retried envNoSecret "body1" "sig1" baseDB eff0
    (Or.inl rfl)

/-- Sending an email never touches the sleep log. -/
theorem sendEmail_sleeps (env : Env) (n : Notice) (eff : Effects) :
    (sendEmail env n eff).sleeps = eff.sleeps := by
  unfold sendEmail; split <;> rfl

/-- Sending an email never touches the attempt log. -/
theorem sendEmail_attempts (env : Env) (n : Notice) (eff : Effects) :
    (sendEmail env n eff).attemptsStarted = eff.attemptsStarted := by
  unfold sendEmail; split <;> rfl

/-- The webhook-error admin notification never touches the sleep log. -/
theorem notifyWebhookError_sleeps (env : Env) (t i m : String) (eff : Effects) :
    (notifyWebhookError env t i m eff).sleeps = eff.sleeps := by
  unfold notifyWebhookError notifyAdmin
  rcases env.adminEmail with _ | r
  · rfl
  · exact sendEmail_sleeps ..

/-- The webhook-error admin notification never touches the attempt log. -/
theorem notifyWebhookError_attempts (env : Env) (t i m : String) (eff : Effects) :
    (notifyWebhookError env t i m eff).attemptsStarted = eff.attemptsStarted := by
  unfold notifyWebhookError notifyAdmin
  rcases env.adminEmail with _ | r
  · rfl
  · exact sendEmail_attempts ..

/-- One attempt under an always-throwing handler: the handler error is
recorded on the processing record — which stays unprocessed — the error is
rethrown, no sleep is taken inside the attempt, and the attempt number is
logged. -/
theorem attempt_handler_fault
    (env : Env) (payload signature secret m : String) (e : Event)
    (db : DB) (eff : Effects) (a : Nat)
    (hsec : env.webhookSecret = some secret)
    (hver : env.verify payload signature secret = some e)
    (hfault : env.handlerFault = some m)
    (hrec : findWebhookEvent db e.id = none
      ∨ ∃ r, findWebhookEvent db e.id = some r ∧ r.processed = false) :
    ∃ db1 eff1,
      processWebhookAttempt env payload signature a db eff
          = (.error (.handling m), db1, eff1)
        ∧ (∃ r1, findWebhookEvent db1 e.id = some r1
            ∧ r1.processed = false ∧ r1.processingError = some m)
        ∧ eff1.sleeps = eff.sleeps
        ∧ eff1.attemptsStarted = eff.attemptsStarted ++ [a] := by
  rcases hrec with hn | ⟨r, hr, hrp⟩
  · have hn' : db.webhookEvents.find? (fun x => x.stripeEventId == e.id) = none := hn
    have haux : (db.webhookEvents ++
        [({ id := db.nextEventRowId, stripeEventId := e.id, eventType := e.type, data := e.data, processed := false, processingError := none } : ProcessingRecord)]).find?
          (fun x => x.stripeEventId == e.id)
        = some { id := db.nextEventRowId, stripeEventId := e.id, eventType := e.type, data := e.data, processed := false, processingError := none } := by
      rw [find?_append_of_none _ _ hn']
      simp
    refine ⟨({ db with
        webhookEvents := (db.webhookEvents ++
          [({ id := db.nextEventRowId, stripeEventId := e.id, eventType := e.type, data := e.data, processed := false, processingError := none } : ProcessingRecord)]).map
            (fun x => if x.stripeEventId == e.id then { x with processingError := some m } else x),
        nextEventRowId := db.nextEventRowId + 1 }),
      notifyWebhookError env e.type e.id m
        ({ eff with
            attemptsStarted := eff.attemptsStarted ++ [a],
            handlerRuns := eff.handlerRuns ++ [e.id] }), ?_, ?_, ?_, ?_⟩
    · simp [processWebhookAttempt, processWebhookEventFlow, upsertWebhookEvent,
        handleWebhookEvent, handleWebhookProcessingError, Err.message,
        findWebhookEvent, hsec, hver, hn', hfault, haux]
    · refine ⟨{ id := db.nextEventRowId, stripeEventId := e.id, eventType := e.type, data := e.data, processed := false, processingError := some m }, ?_, rfl, rfl⟩
      unfold findWebhookEvent
      rw [find?_map_if (fun x : ProcessingRecord => x.stripeEventId == e.id)
            (fun x : ProcessingRecord => { x with processingError := some m }) (fun x => rfl),
          find?_append_of_none _ _ hn']
      simp
    · rw [notifyWebhookError_sleeps]
    · rw [notifyWebhookError_attempts]
  · have hr' : db.webhookEvents.find? (fun x => x.stripeEventId == e.id) = some r := hr
    have hfind1 : (db.webhookEvents.map
        (fun x => if x.stripeEventId == e.id then
          ({ x with processed := false, processingError := none } : ProcessingRecord) else x)).find?
          (fun x => x.stripeEventId == e.id)
        = some { r with processed := false, processingError := none } := by
      rw [find?_map_if (fun x : ProcessingRecord => x.stripeEventId == e.id)
            (fun x : ProcessingRecord => { x with processed := false, processingError := none })
            (fun x => rfl), hr']
      rfl
    refine ⟨({ db with
        webhookEvents := (db.webhookEvents.map
          (fun x => if x.stripeEventId == e.id then
            ({ x with processed := false, processingError := none } : ProcessingRecord) else x)).map
            (fun x => if x.stripeEventId == e.id then { x with processingError := some m } else x) }),
      notifyWebhookError env e.type e.id m
        ({ eff with
            attemptsStarted := eff.attemptsStarted ++ [a],
            handlerRuns := eff.handlerRuns ++ [e.id] }), ?_, ?_, ?_, ?_⟩
    · unfold processWebhookAttempt processWebhookEventFlow handleWebhookEvent
        handleWebhookProcessingError upsertWebhookEvent findWebhookEvent
      simp only [hsec, hver, hr', hrp, hfault, Bool.false_eq_true, if_false, hfind1]
      rfl
    · refine ⟨{ r with processed := false, processingError := some m }, ?_, rfl, rfl⟩
      unfold findWebhookEvent
      rw [find?_map_if (fun x : ProcessingRecord => x.stripeEventId == e.id)
            (fun x : ProcessingRecord => { x with processingError := some m }) (fun x => rfl),
          find?_map_if (fun x : ProcessingRecord => x.stripeEventId == e.id)
            (fun x : ProcessingRecord => { x with processed := false, processingError := none })
            (fun x => rfl), hr']
      rfl
    · rw [notifyWebhookError_sleeps]
    · rw [notifyWebhookError_attempts]

/-- C3: a delivery whose handler throws a transient error on every attempt is
attempted exactly MAX_RETRY_ATTEMPTS = 3 times, with strictly increasing
sleeps of 1s then 2s placed between the attempts and none before the first,
the last error is rethrown to the caller, and the processing record ends
with `processed = false` and `processingError` equal to the final error
message. -/
theorem claim_C3_retry_budget
    (env : Env) (payload signature secret m : String) (e : Event)
    (db : DB) (eff : Effects)
    (hsec : env.webhookSecret = some secret)
    (hver : env.verify payload signature secret = some e)
    (hfault : env.handlerFault = some m)
    (hrec : findWebhookEvent db e.id = none
      ∨ ∃ r, findWebhookEvent db e.id = some r ∧ r.processed = false) :
    (processStripeWebhook env payload signature db eff).1 = .error (.handling m)
      ∧ (processStripeWebhook env payload signature db eff).2.2.attemptsStarted
          = eff.attemptsStarted ++ [1, 2, 3]
      ∧ (processStripeWebhook env payload signature db eff).2.2.sleeps
          = eff.sleeps ++ [1000, 2000]
      ∧ ∃ r1, findWebhookEvent (processStripeWebhook env payload signature db eff).2.1 e.id
            = some r1 ∧ r1.processed = false ∧ r1.processingError = some m := by
  obtain ⟨db1, eff1, h1, hrec1, hs1, ha1⟩ :=
    attempt_handler_fault env payload signature secret m e db eff 1 hsec hver hfault hrec
  have hnext1 : findWebhookEvent db1 e.id = none
      ∨ ∃ r, findWebhookEvent db1 e.id = some r ∧ r.processed = false := by
    obtain ⟨r1, hfr, hp, _⟩ := hrec1
    exact Or.inr ⟨r1, hfr, hp⟩
  obtain ⟨db2, eff2, h2, hrec2, hs2, ha2⟩ :=
    attempt_handler_fault env payload signature secret m e db1
      { eff1 with sleeps := eff1.sleeps ++ [1000] } 2 hsec hver hfault hnext1
  have hnext2 : findWebhookEvent db2 e.id = none
      ∨ ∃ r, findWebhookEvent db2 e.id = some r ∧ r.processed = false := by
    obtain ⟨r2, hfr, hp, _⟩ := hrec2
    exact Or.inr ⟨r2, hfr, hp⟩
  obtain ⟨db3, eff3, h3, hrec3, hs3, ha3⟩ :=
    attempt_handler_fault env payload signature secret m e db2
      { eff2 with sleeps := eff2.sleeps ++ [2000] } 3 hsec hver hfault hnext2
  have key : processStripeWebhook env payload signature db eff
      = (.error (.handling m), db3, eff3) := by
    show retryLoop env payload signature (2 + 1) 0 _ db eff = _
    rw [retryLoop]
    rw [show (0 + 1 : Nat) = 1 from rfl, h1]
    show retryLoop env payload signature (1 + 1) 1 _ db1
      { eff1 with sleeps := eff1.sleeps ++ [1000] } = _
    rw [retryLoop]
    rw [show (1 + 1 : Nat) = 2 from rfl, h2]
    show retryLoop env payload signature (0 + 1) 2 _ db2
      { eff2 with sleeps := eff2.sleeps ++ [2000] } = _
    rw [retryLoop]
    rw [show (2 + 1 : Nat) = 3 from rfl, h3]
    show retryLoop env payload signature 0 3 _ db3 eff3 = _
    rw [retryLoop]
  refine ⟨by rw [key], ?_, ?_, ?_⟩
  · rw [key]
    show eff3.attemptsStarted = _
    rw [ha3]
    show ({ eff2 with sleeps := eff2.sleeps ++ [2000] } : Effects).attemptsStarted ++ [3] = _
    show eff2.attemptsStarted ++ [3] = _
    rw [ha2]
    show eff1.attemptsStarted ++ [2] ++ [3] = _
    rw [ha1]
    simp
  · rw [key]
    show eff3.sleeps = _
    rw [hs3]
    show eff2.sleeps ++ [2000] = _
    rw [hs2]
    show eff1.sleeps ++ [1000] ++ [2000] = _
    rw [hs1]
    simp
  · rw [key]
    exact hrec3

/-- An environment whose handler throws a transient error on every attempt. -/
def envHandlerFault : Env := { baseEnv with handlerFault := some "transient store failure" }

/-- C3 witness: the retry budget exercised at the concrete scenario. -/
theorem claim_C3_retry_budget_witness :
    (processStripeWebhook envHandlerFault "body1" "sig1" baseDB eff0).1
        = .error (.handling "transient store failure")
      ∧ (processStripeWebhook envHandlerFault "body1" "sig1" baseDB eff0).2.2.attemptsStarted
          = eff0.attemptsStarted ++ [1, 2, 3]
      ∧ (processStripeWebhook envHandlerFault "body1" "sig1" baseDB eff0).2.2.sleeps
          = eff0.sleeps ++ [1000, 2000]
      ∧ ∃ r1, findWebhookEvent
            (processStripeWebhook envHandlerFault "body1" "sig1" baseDB eff0).2.1 "evt_1"
          = some r1 ∧ r1.processed = false
          ∧ r1.processingError = some "transient store failure" :=
  claim_C3_retry_budget envHandlerFault "body1" "sig1" "whsec" "transient store failure"
    evt1 baseDB eff0 rfl rfl rfl (Or.inl rfl)

/-- The retry loop cannot change a store that no single attempt changes. -/
theorem retryLoop_db_fixed (env : Env) (payload signature : String) (db : DB)
    (h : ∀ (a : Nat) (eff1 : Effects),
      (processWebhookAttempt env payload signature a db eff1).2.1 = db) :
    ∀ (fuel attempt : Nat) (er : Err) (eff : Effects),
      (retryLoop env payload signature fuel attempt er db eff).2.1 = db := by
  intro fuel
  induction fuel with
  | zero => intro attempt er eff; rfl
  | succ n ih =>
      intro attempt er eff
      rcases hA : processWebhookAttempt env payload signature (attempt + 1) db eff
        with ⟨res, db1, eff1⟩
      have hdb : db1 = db := by
        have hres := h (attempt + 1) eff
        rw [hA] at hres
        exact hres
      subst hdb
      rw [retryLoop, hA]
      cases res with
      | ok u => rfl
      | error er1 => exact ih (attempt + 1) er1 _

/-- C6: once a processing record has `processed = true`, no later pipeline
operation mutates it: a redelivery of the same event id leaves the whole
store untouched (the short-circuit fires before the attempt-start upsert,
and the error-recording path never runs for it), and the admin retry
endpoint rejects the record with no mutation. -/
theorem claim_C6_processed_record_never_mutated
    (env : Env) (payload signature : String) (db : DB) (eff : Effects)
    (eid : String) (r : ProcessingRecord)
    (hfind : findWebhookEvent db eid = some r)
    (hproc : r.processed = true)
    (hsame : ∀ secret, env.webhookSecret = some secret →
      ∀ e : Event, env.verify payload signature secret = some e → e.id = eid) :
    (processStripeWebhook env payload signature db eff).2.1 = db
      ∧ ∀ rid, db.webhookEvents.find? (fun x => x.id == rid) = some r →
          retryWebhookEvent db rid = (.alreadyProcessed, db) := by
  constructor
  · show (retryLoop env payload signature MAX_RETRY_ATTEMPTS 0
      (.handling "no attempt ran") db eff).2.1 = db
    apply retryLoop_db_fixed
    intro a eff1
    rcases hs : env.webhookSecret with _ | secret
    · simp [processWebhookAttempt, handleWebhookProcessingError, hs]
    · rcases hv : env.verify payload signature secret with _ | e
      · simp [processWebhookAttempt, handleWebhookProcessingError, hs, hv]
      · have hid : e.id = eid := hsame secret hs e hv
        simp [processWebhookAttempt, hs, hv, hid, hfind, hproc]
  · intro rid hridfind
    simp [retryWebhookEvent, hridfind, hproc]

/-- C6 witness: redelivering `evt_1` over a store whose record is processed
leaves the store intact. -/
theorem claim_C6_processed_record_never_mutated_witness :
    (processStripeWebhook baseEnv "body1" "sig1"
        (processStripeWebhook baseEnv "body1" "sig1" baseDB eff0).2.1 eff0).2.1
      = (processStripeWebhook baseEnv "body1" "sig1" baseDB eff0).2.1 :=
  (claim_C6_processed_record_never_mutated baseEnv "body1" "sig1"
    (processStripeWebhook baseEnv "body1" "sig1" baseDB eff0).2.1 eff0 "evt_1"
    { id := 1
      stripeEventId := "evt_1"
      eventType := "customer.subscription.created"
      data := .subscription baseStripeSub
      processed := true
      processingError := none }
    (by decide) rfl
    (by
      intro secret hs e hv
      injection hs with h0
      subst h0
      have h1 : some evt1 = some e := hv
      injection h1 with h2
      rw [← h2]
      exact rfl)).1

/-- A selective in-place rewrite that preserves the status field preserves
the list of statuses. -/
theorem map_status_if (p : Subscription → Bool) (g : Subscription → Subscription)
    (hg : ∀ s, (g s).status = s.status) :
    ∀ l : List Subscription,
      (l.map (fun s => if p s then g s else s)).map Subscription.status
        = l.map Subscription.status
  | [] => rfl
  | s :: t => by
      rcases hps : p s with _ | _
      · simp only [List.map_cons, hps, Bool.false_eq_true, if_false]
        rw [map_status_if p g hg t]
      · simp only [List.map_cons, hps, if_true]
        rw [map_status_if p g hg t, hg]

/-- C7 counterexample: the claim says the invoice payment handlers leave the
local subscription status unchanged, but the older WebhookService
(`apps/api/src/services/webhook.service.ts`) rewrites a PAST_DUE
subscription to ACTIVE on `invoice.payment_succeeded` and an ACTIVE one to
PAST_DUE on `invoice.payment_failed` — a status inferred locally from the
payment outcome. -/
theorem claim_C7_counterexample :
    subPastDue.status = SubscriptionStatus.PAST_DUE
      ∧ ((handleInvoicePaymentSucceededApi invPaid
          { baseDB with subscriptions := [subPastDue] }).2.subscriptions.map
            Subscription.status = [SubscriptionStatus.ACTIVE])
      ∧ ((handleInvoicePaymentFailedApi invPaid
          { baseDB with subscriptions := [{ subPastDue with status := .ACTIVE }] }).2.subscriptions.map
            Subscription.status = [SubscriptionStatus.PAST_DUE]) := by
  refine ⟨rfl, by decide, by decide⟩

/-- C7 amended: in the retry-enabled WebhookService (`part_013`) — the
pipeline the spec describes — the invoice payment handlers never write the
status field: `handleInvoicePaymentSucceeded` rewrites at most
`currentPeriodEnd` and `handleInvoicePaymentFailed` performs no store
mutation at all, so the statuses are exactly those before the event.  The
older service in `apps/api/src/services/webhook.service.ts` violates the
claim as stated (see the counterexample) by locally inferring ACTIVE /
PAST_DUE from the payment outcome. -/
theorem claim_C7_amended_payment_handlers_preserve_status
    (env : Env) (inv : StripeInvoice) (db : DB) (eff : Effects) :
    ((handleInvoicePaymentSucceeded env inv db eff).2.1).subscriptions.map Subscription.status
        = db.subscriptions.map Subscription.status
      ∧ (handleInvoicePaymentFailed env inv db eff).2.1 = db := by
  constructor
  · unfold handleInvoicePaymentSucceeded
    rcases hs : inv.subscription with _ | sid
    · rfl
    · rcases hfs : findSubscription db sid with _ | sub
      · simp [hfs]
      · rcases ht : truthyNat inv.period_end with _ | _
        · simp [hfs, ht]
        · simp only [hfs, ht, if_true, mapSubscriptions]
          exact map_status_if (fun s : Subscription => s.id == sub.id)
            (fun s : Subscription => { s with currentPeriodEnd := inv.period_end.getD 0 * 1000 })
            (fun s => rfl) db.subscriptions
  · unfold handleInvoicePaymentFailed
    rcases hs : inv.subscription with _ | sid
    · rfl
    · rcases hfs : findSubscription db sid with _ | sub
      · simp [hfs]
      · simp [hfs]

/-- A successful quota write changes only the quota table. -/
theorem updateQuota_preserves (env : Env) (i : Nat) (mt : UsageMetricType)
    (lim : Nat) (opts : QuotaOptions) (db db2 : DB)
    (hu : updateQuota env i mt lim opts db = .ok db2) :
    db2.plans = db.plans ∧ db2.subscriptions = db.subscriptions
      ∧ db2.webhookEvents = db.webhookEvents := by
  unfold updateQuota at hu
  split at hu
  · exact absurd hu (by simp)
  · split at hu
    · injection hu with h1
      rw [← h1]
      exact ⟨rfl, rfl, rfl⟩
    · injection hu with h1
      rw [← h1]
      exact ⟨rfl, rfl, rfl⟩

/-- Quota initialization changes only the quota table, whatever the plan and
however far the writes get. -/
theorem initializeUsageQuotas_preserves (env : Env) (i : Nat) (plan : Plan) (db : DB) :
    (initializeUsageQuotas env i plan db).plans = db.plans
      ∧ (initializeUsageQuotas env i plan db).subscriptions = db.subscriptions
      ∧ (initializeUsageQuotas env i plan db).webhookEvents = db.webhookEvents := by
  unfold initializeUsageQuotas
  generalize quotaCalls plan = cs
  induction cs generalizing db with
  | nil => exact ⟨rfl, rfl, rfl⟩
  | cons c rest ih =>
      rcases c with ⟨mt, lim, thr⟩
      unfold runQuotaCalls
      rcases hu : updateQuota env i mt lim { alertThreshold := some thr } db with er | db2
      · exact ⟨rfl, rfl, rfl⟩
      · obtain ⟨hp1, hp2, hp3⟩ :=
          updateQuota_preserves env i mt lim { alertThreshold := some thr } db db2 hu
        obtain ⟨ih1, ih2, ih3⟩ := ih db2
        exact ⟨ih1.trans hp1, ih2.trans hp2, ih3.trans hp3⟩

/-- The subscription validation reads the store only through the plan
table. -/
theorem validate_plans_congr (env : Env) (s : StripeSubscription) (db dbx : DB)
    (hp : dbx.plans = db.plans) :
    validateSubscriptionData env s dbx = validateSubscriptionData env s db := by
  unfold validateSubscriptionData
  rw [hp]

/-- C8 counterexample: the claim says running the subscription-created
handler twice in sequence succeeds and converges; on the concrete scenario
the first run succeeds and the second fails — `createDatabaseSubscription`
is a bare insert, not an upsert. -/
theorem claim_C8_counterexample :
    (handleSubscriptionCreated baseEnv baseStripeSub baseDB eff0).1 = .ok ()
      ∧ (handleSubscriptionCreated baseEnv baseStripeSub
          (handleSubscriptionCreated baseEnv baseStripeSub baseDB eff0).2.1
          (handleSubscriptionCreated baseEnv baseStripeSub baseDB eff0).2.2).1
        = .error (.handling "Unique constraint failed on stripeSubscriptionId")
      ∧ (Except.error (Err.handling "Unique constraint failed on stripeSubscriptionId")
          : Except Err Unit) ≠ .ok () := by
  refine ⟨rfl, rfl, fun hco => Except.noConfusion hco⟩

/-- C8 amended: the subscription-created handler is not idempotent at the
domain-write level.  After any successful run, re-running it with the same
event input fails with the unique-constraint error of the bare
`prisma.subscription.create` on `stripeSubscriptionId` and leaves the store
unchanged: no duplicate row is ever created, but the handler is not
re-runnable — at-least-once safety rests on the processed short-circuit of
the orchestrator, not on handler idempotency. -/
theorem claim_C8_amended_created_handler_not_rerunnable
    (env : Env) (s : StripeSubscription) (db : DB) (eff : Effects)
    (db1 : DB) (eff1 : Effects)
    (h : handleSubscriptionCreated env s db eff = (.ok (), db1, eff1)) :
    (handleSubscriptionCreated env s db1 eff1).1
        = .error (.handling "Unique constraint failed on stripeSubscriptionId")
      ∧ (handleSubscriptionCreated env s db1 eff1).2.1 = db1 := by
  unfold handleSubscriptionCreated at h
  rcases hv : validateSubscriptionData env s db with er | ⟨userId, plan⟩
  · rw [hv] at h
    simp at h
  · simp only [hv] at h
    rcases hc : createDatabaseSubscription env s userId plan db with er | ⟨newSub, dbA⟩
    · simp only [hc] at h
      simp at h
    · simp only [hc] at h
      have hdb1 : db1 = initializeUsageQuotas env newSub.id plan dbA := by
        have hcomp := congrArg (fun t => t.2.1) h
        exact hcomp.symm
      unfold createDatabaseSubscription at hc
      split at hc
      · simp at hc
      · split at hc
        · simp at hc
        · rename_i item hh
          simp only [Except.ok.injEq, Prod.mk.injEq] at hc
          obtain ⟨hsub, hdbA⟩ := hc
          have hkey : newSub.stripeSubscriptionId = s.id := by rw [← hsub]
          have hsubsA : dbA.subscriptions = db.subscriptions ++ [newSub] := by
            rw [← hdbA, ← hsub]
          obtain ⟨hp1, hp2, -⟩ := initializeUsageQuotas_preserves env newSub.id plan dbA
          have hplans1 : db1.plans = db.plans := by
            rw [hdb1]
            refine hp1.trans ?_
            rw [← hdbA]
          have hsubs1 : db1.subscriptions = db.subscriptions ++ [newSub] := by
            rw [hdb1]
            exact hp2.trans hsubsA
          have hcreate2 : createDatabaseSubscription env s userId plan db1
              = .error (.handling "Unique constraint failed on stripeSubscriptionId") := by
            unfold createDatabaseSubscription
            rw [hsubs1]
            simp [List.any_append, hkey]
          have hmain : handleSubscriptionCreated env s db1 eff1
              = (.error (.handling "Unique constraint failed on stripeSubscriptionId"),
                 db1, eff1) := by
            unfold handleSubscriptionCreated
            rw [validate_plans_congr env s db db1 hplans1]
            simp only [hv, hcreate2]
          exact ⟨by rw [hmain], by rw [hmain]⟩

/-- C8 amended witness: the non-rerunnability exercised at the concrete
scenario. -/
theorem claim_C8_amended_created_handler_not_rerunnable_witness :
    (handleSubscriptionCreated baseEnv baseStripeSub
        (handleSubscriptionCreated baseEnv baseStripeSub baseDB eff0).2.1
        (handleSubscriptionCreated baseEnv baseStripeSub baseDB eff0).2.2).1
        = .error (.handling "Unique constraint failed on stripeSubscriptionId")
      ∧ (handleSubscriptionCreated baseEnv baseStripeSub
          (handleSubscriptionCreated baseEnv baseStripeSub baseDB eff0).2.1
          (handleSubscriptionCreated baseEnv baseStripeSub baseDB eff0).2.2).2.1
        = (handleSubscriptionCreated baseEnv baseStripeSub baseDB eff0).2.1 :=
  claim_C8_amended_created_handler_not_rerunnable baseEnv baseStripeSub baseDB eff0
    (handleSubscriptionCreated baseEnv baseStripeSub baseDB eff0).2.1
    (handleSubscriptionCreated baseEnv baseStripeSub baseDB eff0).2.2
    (Prod.ext rfl rfl)

/-- The subscription-created handler never touches the webhook-event table. -/
theorem createDatabaseSubscription_webhookEvents (env : Env) (s : StripeSubscription)
    (userId : String) (plan : Plan) (db : DB) (sub : Subscription) (dbA : DB)
    (hc : createDatabaseSubscription env s userId plan db = .ok (sub, dbA)) :
    dbA.webhookEvents = db.webhookEvents := by
  unfold createDatabaseSubscription at hc
  split at hc
  · simp at hc
  · split at hc
    · simp at hc
    · simp only [Except.ok.injEq, Prod.mk.injEq] at hc
      obtain ⟨h1, h2⟩ := hc
      rw [← h2]

/-- `handleSubscriptionCreated` never touches the webhook-event table. -/
theorem handleSubscriptionCreated_webhookEvents (env : Env) (s : StripeSubscription)
    (db : DB) (eff : Effects) :
    (handleSubscriptionCreated env s db eff).2.1.webhookEvents = db.webhookEvents := by
  unfold handleSubscriptionCreated
  rcases hv : validateSubscriptionData env s db with er | ⟨u, p⟩
  · simp only [hv]
  · simp only [hv]
    rcases hc : createDatabaseSubscription env s u p db with er | ⟨sub, dbA⟩
    · simp only [hc]
    · simp only [hc]
      show (initializeUsageQuotas env sub.id p dbA).webhookEvents = db.webhookEvents
      rw [(initializeUsageQuotas_preserves env sub.id p dbA).2.2]
      exact createDatabaseSubscription_webhookEvents env s u p db sub dbA hc

/-- `handleSubscriptionUpdated` never touches the webhook-event table. -/
theorem handleSubscriptionUpdated_webhookEvents (env : Env) (s : StripeSubscription)
    (db : DB) (eff : Effects) :
    (handleSubscriptionUpdated env s db eff).2.1.webhookEvents = db.webhookEvents := by
  unfold handleSubscriptionUpdated
  rcases hf : findSubscription db s.id with _ | ex
  · simp only [hf]
  · simp only [hf]
    rcases hh : s.items.head? with _ | item
    · simp only [hh]
    · simp only [hh]
      rfl

/-- `handleSubscriptionDeleted` never touches the webhook-event table. -/
theorem handleSubscriptionDeleted_webhookEvents (env : Env) (s : StripeSubscription)
    (db : DB) (eff : Effects) :
    (handleSubscriptionDeleted env s db eff).2.1.webhookEvents = db.webhookEvents := by
  unfold handleSubscriptionDeleted
  rcases hf : findSubscription db s.id with _ | ex
  · simp only [hf]
  · simp only [hf]
    rfl

/-- `handleInvoicePaymentSucceeded` never touches the webhook-event table. -/
theorem handleInvoicePaymentSucceeded_webhookEvents (env : Env) (inv : StripeInvoice)
    (db : DB) (eff : Effects) :
    (handleInvoicePaymentSucceeded env inv db eff).2.1.webhookEvents = db.webhookEvents := by
  unfold handleInvoicePaymentSucceeded
  rcases hs : inv.subscription with _ | sid
  · simp only [hs]
  · simp only [hs]
    rcases hf : findSubscription db sid with _ | sub
    · simp only [hf]
    · simp only [hf]
      rcases ht : truthyNat inv.period_end with _ | _
      · simp only [ht, Bool.false_eq_true, if_false]
      · simp only [ht, if_true]
        rfl

/-- `handleInvoicePaymentFailed` never touches the webhook-event table. -/
theorem handleInvoicePaymentFailed_webhookEvents (env : Env) (inv : StripeInvoice)
    (db : DB) (eff : Effects) :
    (handleInvoicePaymentFailed env inv db eff).2.1.webhookEvents = db.webhookEvents := by
  unfold handleInvoicePaymentFailed
  rcases hs : inv.subscription with _ | sid
  · simp only [hs]
  · simp only [hs]
    rcases hf : findSubscription db sid with _ | sub
    · simp only [hf]
    · simp only [hf]

/-- `handleCustomerCreated` never touches the webhook-event table. -/
theorem handleCustomerCreated_webhookEvents (env : Env) (c : StripeCustomer)
    (db : DB) (eff : Effects) :
    (handleCustomerCreated env c db eff).2.1.webhookEvents = db.webhookEvents := by
  unfold handleCustomerCreated
  rcases ht : truthyStr c.metadata_userId with _ | _
  · simp only [ht, Bool.false_eq_true, if_false]
  · simp only [ht, if_true]
    rcases ha : db.users.any (fun u => u.id == c.metadata_userId.getD "") with _ | _
    · simp only [ha, Bool.false_eq_true, if_false]
    · simp only [ha, if_true]

/-- `handleCustomerUpdated` never touches the webhook-event table. -/
theorem handleCustomerUpdated_webhookEvents (env : Env) (c : StripeCustomer)
    (db : DB) (eff : Effects) :
    (handleCustomerUpdated env c db eff).2.1.webhookEvents = db.webhookEvents := by
  unfold handleCustomerUpdated
  rcases hb : truthyStr c.metadata_userId && truthyStr c.email with _ | _
  · simp only [hb, Bool.false_eq_true, if_false]
  · simp only [hb, if_true]

/-- The dispatcher never touches the webhook-event table: every handler
mutates only the subscription, user and quota tables. -/
theorem handleWebhookEvent_webhookEvents (env : Env) (e : Event)
    (db : DB) (eff : Effects) :
    (handleWebhookEvent env e db eff).2.1.webhookEvents = db.webhookEvents := by
  unfold handleWebhookEvent
  rcases hf : env.handlerFault with _ | m
  · simp only [hf]
    split
    all_goals first
      | rfl
      | apply handleSubscriptionCreated_webhookEvents
      | apply handleSubscriptionUpdated_webhookEvents
      | apply handleSubscriptionDeleted_webhookEvents
      | apply handleInvoicePaymentSucceeded_webhookEvents
      | apply handleInvoicePaymentFailed_webhookEvents
      | apply handleCustomerCreated_webhookEvents
      | apply handleCustomerUpdated_webhookEvents
  · simp only [hf]

/-- One attempt whose dispatched handler succeeds: the attempt succeeds and
the processing record ends marked `processed = true`, for any record state
the short-circuit lets through to the flow. -/
theorem attempt_handler_ok
    (env : Env) (payload signature secret : String) (e : Event)
    (db : DB) (eff : Effects) (a : Nat)
    (hsec : env.webhookSecret = some secret)
    (hver : env.verify payload signature secret = some e)
    (hok : (handleWebhookEvent env e
        (upsertWebhookEvent db e.id
          (fun r => { r with processed := false, processingError := none })
          (fun rid => { id := rid, stripeEventId := e.id, eventType := e.type, data := e.data, processed := false, processingError := none }))
        { eff with attemptsStarted := eff.attemptsStarted ++ [a] }).1 = .ok ())
    (hrec : findWebhookEvent db e.id = none
      ∨ ∃ r, findWebhookEvent db e.id = some r ∧ r.processed = false) :
    ∃ db1 eff1,
      processWebhookAttempt env payload signature a db eff = (.ok (), db1, eff1)
        ∧ (findWebhookEvent db1 e.id).map ProcessingRecord.processed = some true := by
  rcases hH : handleWebhookEvent env e
      (upsertWebhookEvent db e.id
        (fun r => { r with processed := false, processingError := none })
        (fun rid => { id := rid, stripeEventId := e.id, eventType := e.type, data := e.data, processed := false, processingError := none }))
      { eff with attemptsStarted := eff.attemptsStarted ++ [a] } with ⟨res, db2, eff2⟩
  have hres : res = Except.ok () := by
    rw [hH] at hok
    exact hok
  subst hres
  have hfind1 : ∃ r1, (upsertWebhookEvent db e.id
      (fun r => { r with processed := false, processingError := none })
      (fun rid => { id := rid, stripeEventId := e.id, eventType := e.type, data := e.data, processed := false, processingError := none })).webhookEvents.find?
        (fun x => x.stripeEventId == e.id) = some r1 := by
    rcases hrec with hn | ⟨r, hr, _⟩
    · have hn' : db.webhookEvents.find? (fun x => x.stripeEventId == e.id) = none := hn
      refine ⟨{ id := db.nextEventRowId, stripeEventId := e.id, eventType := e.type, data := e.data, processed := false, processingError := none }, ?_⟩
      unfold upsertWebhookEvent
      simp only [hn]
      show (db.webhookEvents ++ [_]).find? _ = _
      rw [find?_append_of_none _ _ hn']
      simp
    · have hr' : db.webhookEvents.find? (fun x => x.stripeEventId == e.id) = some r := hr
      refine ⟨{ r with processed := false, processingError := none }, ?_⟩
      unfold upsertWebhookEvent
      simp only [hr]
      show (db.webhookEvents.map _).find? _ = _
      rw [find?_map_if (fun x : ProcessingRecord => x.stripeEventId == e.id)
            (fun x : ProcessingRecord => { x with processed := false, processingError := none })
            (fun x => rfl), hr']
      rfl
  obtain ⟨r1, hfind1⟩ := hfind1
  have hW : db2.webhookEvents = (upsertWebhookEvent db e.id
      (fun r => { r with processed := false, processingError := none })
      (fun rid => { id := rid, stripeEventId := e.id, eventType := e.type, data := e.data, processed := false, processingError := none })).webhookEvents := by
    have h := handleWebhookEvent_webhookEvents env e
      (upsertWebhookEvent db e.id
        (fun r => { r with processed := false, processingError := none })
        (fun rid => { id := rid, stripeEventId := e.id, eventType := e.type, data := e.data, processed := false, processingError := none }))
      { eff with attemptsStarted := eff.attemptsStarted ++ [a] }
    rw [hH] at h
    exact h
  have hfind2 : findWebhookEvent db2 e.id = some r1 := by
    unfold findWebhookEvent
    rw [hW]
    exact hfind1
  have hmark : markWebhookProcessed db2 e.id
      = .ok { db2 with webhookEvents := db2.webhookEvents.map (fun x =>
          if x.stripeEventId == e.id then { x with processed := true } else x) } := by
    unfold markWebhookProcessed
    simp only [hfind2]
  have hfind3 : (findWebhookEvent { db2 with webhookEvents := db2.webhookEvents.map (fun x =>
      if x.stripeEventId == e.id then { x with processed := true } else x) } e.id).map
        ProcessingRecord.processed = some true := by
    unfold findWebhookEvent
    show ((db2.webhookEvents.map _).find? _).map _ = _
    rw [find?_map_if (fun x : ProcessingRecord => x.stripeEventId == e.id)
          (fun x : ProcessingRecord => { x with processed := true }) (fun x => rfl)]
    rw [show db2.webhookEvents.find? (fun x => x.stripeEventId == e.id) = some r1 from hfind2]
    rfl
  refine ⟨{ db2 with webhookEvents := db2.webhookEvents.map (fun x =>
      if x.stripeEventId == e.id then { x with processed := true } else x) },
    notifyWebhookSuccess e eff2, ?_, hfind3⟩
  unfold processWebhookAttempt processWebhookEventFlow
  rcases hrec with hn | ⟨r, hr, hrp⟩
  · simp only [hsec, hver, hn, hH, hmark]
  · simp only [hsec, hver, hr, hrp, Bool.false_eq_true, if_false, hH, hmark]

/-- An environment with the notification sink failure flags overridden; all
other fields — configuration, verifier, customer store, fault flags, clock —
are those of the base environment. -/
def setSinks (env : Env) (b1 b2 : Bool) : Env :=
  { env with emailSinkFails := b1, slackSinkFails := b2 }

/-- C9: notification failure never fails webhook processing.  Every
notification operation of the model is a total function on the effect log —
the try/catch inside `sendEmail` and `sendSlackNotification` is what makes
the source functions unable to throw to their caller — and consequently,
for every environment, delivery, store and event whose dispatched handler
succeeds (whatever the sinks do), the pipeline reports success and the
event record ends marked `processed = true`, under every assignment of the
email and Slack sink-failure flags. -/
theorem claim_C9_notification_isolation
    (env : Env) (payload signature secret : String) (e : Event)
    (db : DB) (eff : Effects) (b1 b2 : Bool)
    (hsec : env.webhookSecret = some secret)
    (hver : env.verify payload signature secret = some e)
    (hok : ∀ (c1 c2 : Bool) (effx : Effects),
      (handleWebhookEvent (setSinks env c1 c2) e
        (upsertWebhookEvent db e.id
          (fun r => { r with processed := false, processingError := none })
          (fun rid => { id := rid, stripeEventId := e.id, eventType := e.type, data := e.data, processed := false, processingError := none }))
        effx).1 = .ok ()) :
    (processStripeWebhook (setSinks env b1 b2) payload signature db eff).1 = .ok ()
      ∧ (findWebhookEvent
          (processStripeWebhook (setSinks env b1 b2) payload signature db eff).2.1 e.id).map
            ProcessingRecord.processed = some true := by
  have hsecF : (setSinks env b1 b2).webhookSecret = some secret := hsec
  have hverF : (setSinks env b1 b2).verify payload signature secret = some e := hver
  have flow : (findWebhookEvent db e.id = none
      ∨ ∃ r, findWebhookEvent db e.id = some r ∧ r.processed = false) →
      (processStripeWebhook (setSinks env b1 b2) payload signature db eff).1 = .ok ()
        ∧ (findWebhookEvent
            (processStripeWebhook (setSinks env b1 b2) payload signature db eff).2.1 e.id).map
              ProcessingRecord.processed = some true := by
    intro hrec
    obtain ⟨db1, eff1, ha, hp⟩ := attempt_handler_ok (setSinks env b1 b2) payload signature
      secret e db eff 1 hsecF hverF (hok b1 b2 _) hrec
    have key : processStripeWebhook (setSinks env b1 b2) payload signature db eff
        = (.ok (), db1, eff1) := by
      show retryLoop (setSinks env b1 b2) payload signature (2 + 1) 0 _ db eff = _
      rw [retryLoop]
      rw [show (0 + 1 : Nat) = 1 from rfl, ha]
    exact ⟨by rw [key], by rw [key]; exact hp⟩
  rcases hfind : findWebhookEvent db e.id with _ | r
  · exact flow (Or.inl hfind)
  · rcases hrp : r.processed with _ | _
    · exact flow (Or.inr ⟨r, hfind, hrp⟩)
    · have a1 : ∀ eff1 : Effects,
          processWebhookAttempt (setSinks env b1 b2) payload signature 1 db eff1
            = (.ok (), db, { eff1 with attemptsStarted := eff1.attemptsStarted ++ [1] }) := by
        intro eff1
        simp [processWebhookAttempt, hsecF, hverF, hfind, hrp]
      have key : processStripeWebhook (setSinks env b1 b2) payload signature db eff
          = (.ok (), db, { eff with attemptsStarted := eff.attemptsStarted ++ [1] }) := by
        show retryLoop (setSinks env b1 b2) payload signature (2 + 1) 0 _ db eff = _
        rw [retryLoop, a1]
      refine ⟨by rw [key], ?_⟩
      rw [key]
      show (findWebhookEvent db e.id).map ProcessingRecord.processed = some true
      rw [hfind]
      simp [hrp]

/-- C9 witness: the isolation exercised with failing sinks at the concrete
scenario — the dispatched handler succeeds for every sink behavior, the
pipeline reports success, and the record is marked processed. -/
theorem claim_C9_notification_isolation_witness :
    (processStripeWebhook (setSinks baseEnv true true) "body1" "sig1" baseDB eff0).1 = .ok ()
      ∧ (findWebhookEvent
          (processStripeWebhook (setSinks baseEnv true true) "body1" "sig1" baseDB eff0).2.1
          "evt_1").map ProcessingRecord.processed = some true :=
  claim_C9_notification_isolation baseEnv "body1" "sig1" "whsec" evt1 baseDB eff0 true true
    rfl rfl (fun _ _ _ => rfl)

/-- An environment whose quota store fails every write. -/
def envQuotaFault : Env := { baseEnv with quotaFault := true }

/-- C10: quota initialization is best effort.  Any error raised while
initializing usage quotas is swallowed inside `initializeUsageQuotas`
(first conjunct: under a quota store that fails every write, the store is
returned unchanged — no quota row is created and no error escapes), and the
subscription-created handler and the whole pipeline still succeed: on the
concrete scenario under the failing quota store, processing returns
success, the record is marked `processed = true`, the subscription row
exists, and the quota table stays empty. -/
theorem claim_C10_quota_init_best_effort :
    (∀ (env : Env) (i : Nat) (plan : Plan) (db : DB), env.quotaFault = true →
        initializeUsageQuotas env i plan db = db)
      ∧ (processStripeWebhook envQuotaFault "body1" "sig1" baseDB eff0).1 = .ok ()
      ∧ (findWebhookEvent
          (processStripeWebhook envQuotaFault "body1" "sig1" baseDB eff0).2.1
          "evt_1").map ProcessingRecord.processed = some true
      ∧ (processStripeWebhook envQuotaFault "body1" "sig1" baseDB eff0).2.1.quotas = []
      ∧ ((processStripeWebhook envQuotaFault "body1" "sig1" baseDB eff0).2.1.subscriptions.map
          Subscription.stripeSubscriptionId) = ["sub_1"] := by
  refine ⟨?_, rfl, by decide, by decide, by decide⟩
  intro env i plan db hq
  unfold initializeUsageQuotas
  generalize quotaCalls plan = cs
  cases cs with
  | nil => rfl
  | cons c rest =>
      rcases c with ⟨mt, lim, thr⟩
      unfold runQuotaCalls
      have hu : updateQuota env i mt lim { alertThreshold := some thr } db
          = .error (.handling "Failed to update usage quota") := by
        unfold updateQuota
        rw [hq]
        rfl
      rw [hu]

/-- C10 witness: the swallowed quota failure at the concrete scenario. -/
theorem claim_C10_quota_init_best_effort_witness :
    initializeUsageQuotas envQuotaFault 1 basePlan baseDB = baseDB :=
  claim_C10_quota_init_best_effort.1 envQuotaFault 1 basePlan baseDB rfl

end Webhook
